import Mathlib

/-!
Shallow embedding of the AMM and staking engines of
`src/turbin3-rust/programs/turbin3-rust/src/lib.rs`.

Machine integers are modelled as `Nat` with explicit bounds: a `u64` value
is a `Nat` below `U64 = 2^64`, a `u128` intermediate is a `Nat` below
`U128 = 2^128`.  Rust's `checked_mul/checked_add/checked_sub(..).unwrap()`
idiom (which aborts the instruction on `None`) and plain arithmetic that
overflows under the release profile's overflow checks are both modelled by
the `TxResult.abort` outcome; `as u64` narrowing casts are `% U64`.
Timestamps (`i64`) are modelled as `Int`.  Solana reverts every account
mutation of an instruction that does not return `Ok`, so an operation is a
pure function from the pre-state to a `TxResult` carrying the post-state
only on success.
-/

namespace Turbin3

def U64 : Nat := 2 ^ 64

def U128 : Nat := 2 ^ 128

/-- `PRECISION`: the literal `1e9 as u128` used for reward scaling (lib.rs
lines 448, 488, 495, 538, 543, 590, 600). -/
def PRECISION : Nat := 1000000000

/-- The value of an `x as u128` cast of an `i64` value `x` (two's
complement reinterpretation). -/
def i64ToU128 (x : Int) : Nat := (x % (2 ^ 128 : Int)).toNat

/-- The `ErrorCode` enum of lib.rs (lines 1315-1329). -/
inductive ErrorCode where
  | InvalidAmount
  | InsufficientFunds
  | InvalidFee
  | SlippageExceeded
  | CooldownNotMet
  | NoRewardsToClaim
deriving DecidableEq

/-- Outcome of one instruction: success with the new state, a typed
`ErrorCode` failure, or an abort (an `unwrap()` panic or a failed CPI),
which also makes the transaction fail. -/
inductive TxResult (σ : Type) where
  | ok (s : σ)
  | err (e : ErrorCode)
  | abort
deriving DecidableEq

/-- Solana's transactional semantics: an instruction that does not return
`Ok` has every account mutation rolled back, so the committed state is the
pre-state. -/
def commit {σ : Type} (r : TxResult σ) (pre : σ) : σ :=
  match r with
  | .ok s => s
  | .err _ => pre
  | .abort => pre

-- ===================== AMM =====================

/-- The numeric state of one AMM pool: the two vault balances and the fee
in basis points (`AmmState.fee : u16`, lib.rs lines 1274-1283; the vault
balances are the `token_a_vault` / `token_b_vault` SPL accounts). -/
structure AmmState where
  reserve_a : Nat
  reserve_b : Nat
  fee : Nat
deriving DecidableEq

/-- Which vault the user's input token matches (the
`token_a_vault.mint == user_token_in.mint` test at lib.rs line 360). -/
inductive SwapDir where
  | aToB
  | bToA
deriving DecidableEq

/-- The input-side reserve of a swap. -/
def rIn (amm : AmmState) : SwapDir → Nat
  | .aToB => amm.reserve_a
  | .bToA => amm.reserve_b

/-- The output-side reserve of a swap. -/
def rOut (amm : AmmState) : SwapDir → Nat
  | .aToB => amm.reserve_b
  | .bToA => amm.reserve_a

/-- Rebuild the pool state from the post-swap input/output reserves. -/
def mkPost (amm : AmmState) (dir : SwapDir) (rin rout : Nat) : AmmState :=
  match dir with
  | .aToB => ⟨rin, rout, amm.fee⟩
  | .bToA => ⟨rout, rin, amm.fee⟩

/-- `amount_in_with_fee` of `swap_tokens` (lib.rs line 358):
`amount_in.checked_mul(10000 - fee).unwrap().checked_div(10000).unwrap()`
(the value, when neither step aborts). -/
def feeAdjusted (amm : AmmState) (amount_in : Nat) : Nat :=
  amount_in * (10000 - amm.fee) / 10000

/-- `amount_out` of `swap_tokens` (lib.rs lines 360-368): the value of
`reserve_out * amount_in_with_fee / (reserve_in + amount_in_with_fee)`
when no checked step aborts. -/
def swapOut (amm : AmmState) (dir : SwapDir) (amount_in : Nat) : Nat :=
  rOut amm dir * feeAdjusted amm amount_in / (rIn amm dir + feeAdjusted amm amount_in)

/-- `swap_tokens` (lib.rs lines 350-405).  Guard by guard:
`require!(amount_in > 0)` (line 351); `10000 - fee as u64` underflows when
`fee > 10000` (never reachable past `initialize_amm`'s check);
`amount_in.checked_mul(10000 - fee).unwrap()` aborts at `U64` (line 358);
`checked_div(10000)` never fails; the constant-product numerator
`reserve_out.checked_mul(amount_in_with_fee).unwrap()` is 64-bit and
aborts at `U64` (lines 362, 366); `checked_add` on the denominator
likewise; `checked_div` of the denominator aborts when it is zero;
`require!(amount_out >= min_amount_out)` (line 370); then the SPL
transfers move `amount_in` into the input vault (aborting if its balance
would overflow `u64`) and `amount_out` out of the output vault. -/
def swapTokens (amm : AmmState) (dir : SwapDir) (amount_in min_amount_out : Nat) :
    TxResult AmmState :=
  if amount_in = 0 then .err .InvalidAmount
  else if 10000 < amm.fee then .abort
  else if U64 ≤ amount_in * (10000 - amm.fee) then .abort
  else if U64 ≤ rOut amm dir * feeAdjusted amm amount_in then .abort
  else if U64 ≤ rIn amm dir + feeAdjusted amm amount_in then .abort
  else if rIn amm dir + feeAdjusted amm amount_in = 0 then .abort
  else if swapOut amm dir amount_in < min_amount_out then .err .SlippageExceeded
  else if U64 ≤ rIn amm dir + amount_in then .abort
  else .ok (mkPost amm dir (rIn amm dir + amount_in)
              (rOut amm dir - swapOut amm dir amount_in))

-- ===================== STAKING =====================

/-- The numeric fields of `StakingPool` (lib.rs lines 1285-1299). -/
structure StakingPool where
  total_staked : Nat
  reward_rate : Nat
  last_update_time : Int
  accumulated_reward_per_share : Nat
  cooldown_period : Int
deriving DecidableEq

/-- The numeric fields of `UserStake` (lib.rs lines 1301-1311). -/
structure UserStake where
  amount : Nat
  reward_debt : Nat
  pending_rewards : Nat
  last_stake_time : Int
deriving DecidableEq

/-- The reward-accrual prologue shared verbatim by `stake_tokens`
(lines 436-442), `add_stake` (478-484), `unstake_tokens` (529-535) and
`claim_rewards` (580-586):

    if pool.total_staked > 0 {
        let time_elapsed = current_time - pool.last_update_time;
        let rewards_per_share =
            (pool.reward_rate as u128 * time_elapsed as u128) / pool.total_staked as u128;
        pool.accumulated_reward_per_share = pool.accumulated_reward_per_share
            .checked_add(rewards_per_share as u64).unwrap();
    }
    pool.last_update_time = current_time;

`none` is the abort case (u128 multiplication overflow, or the
`checked_add(..).unwrap()`). -/
def accrue (p : StakingPool) (now : Int) : Option StakingPool :=
  if 0 < p.total_staked then
    if U128 ≤ p.reward_rate * i64ToU128 (now - p.last_update_time) then none
    else if U64 ≤ p.accumulated_reward_per_share +
        p.reward_rate * i64ToU128 (now - p.last_update_time) / p.total_staked % U64 then none
    else
      some ⟨p.total_staked, p.reward_rate, now,
            p.accumulated_reward_per_share +
              p.reward_rate * i64ToU128 (now - p.last_update_time) / p.total_staked % U64,
            p.cooldown_period⟩
  else some { p with last_update_time := now }

/-- The guarded pending-reward settlement of `add_stake` (lib.rs lines
486-490, run only for `user_stake.amount > 0`):
`pending = (amount as u128 * acc as u128 / 1e9) - reward_debt as u128`
(u128 subtraction, aborting on underflow), then
`pending_rewards.checked_add(pending as u64).unwrap()`.  Returns the new
`pending_rewards` value, or `none` on abort. -/
def settlePending (u : UserStake) (acc : Nat) : Option Nat :=
  if 0 < u.amount then
    if u.amount * acc / PRECISION < u.reward_debt then none
    else if U64 ≤ u.pending_rewards + (u.amount * acc / PRECISION - u.reward_debt) % U64 then
      none
    else some (u.pending_rewards + (u.amount * acc / PRECISION - u.reward_debt) % U64)
  else some u.pending_rewards

/-- The unguarded settlement of `unstake_tokens` (lib.rs lines 537-539),
identical but computed for every position. -/
def settlePendingAlways (u : UserStake) (acc : Nat) : Option Nat :=
  if u.amount * acc / PRECISION < u.reward_debt then none
  else if U64 ≤ u.pending_rewards + (u.amount * acc / PRECISION - u.reward_debt) % U64 then
    none
  else some (u.pending_rewards + (u.amount * acc / PRECISION - u.reward_debt) % U64)

/-- The pending-reward delta of `claim_rewards` (lib.rs lines 588-593):
`(amount*acc/1e9) - reward_debt` as `u64` for a non-empty position, `0`
otherwise; `none` on u128 underflow. -/
def pendingDelta (u : UserStake) (acc : Nat) : Option Nat :=
  if 0 < u.amount then
    if u.amount * acc / PRECISION < u.reward_debt then none
    else some ((u.amount * acc / PRECISION - u.reward_debt) % U64)
  else some 0

/-- `stake_tokens` (lib.rs lines 428-469): `require!(amount > 0)`, accrue,
initialize the (fresh) user stake with
`reward_debt = (amount as u128 * acc as u128 / 1e9 as u128) as u64`,
`pending_rewards = 0`, `last_stake_time = now`, then
`total_staked.checked_add(amount).unwrap()`. -/
def stakeTokens (p : StakingPool) (now : Int) (amount : Nat) :
    TxResult (StakingPool × UserStake) :=
  if amount = 0 then .err .InvalidAmount
  else
    match accrue p now with
    | none => .abort
    | some p1 =>
      if U64 ≤ p1.total_staked + amount then .abort
      else
        .ok ({ p1 with total_staked := p1.total_staked + amount },
             ⟨amount, amount * p1.accumulated_reward_per_share / PRECISION % U64, 0, now⟩)

/-- `add_stake` (lib.rs lines 471-513): `require!(amount > 0)`, accrue,
settle the pending reward of an existing position, then grow `amount`
(checked), reset `last_stake_time`, resynchronize `reward_debt`, and grow
`total_staked` (checked). -/
def addStake (p : StakingPool) (u : UserStake) (now : Int) (amount : Nat) :
    TxResult (StakingPool × UserStake) :=
  if amount = 0 then .err .InvalidAmount
  else
    match accrue p now with
    | none => .abort
    | some p1 =>
      match settlePending u p1.accumulated_reward_per_share with
      | none => .abort
      | some pend =>
        if U64 ≤ u.amount + amount then .abort
        else if U64 ≤ p1.total_staked + amount then .abort
        else
          .ok ({ p1 with total_staked := p1.total_staked + amount },
               ⟨u.amount + amount,
                (u.amount + amount) * p1.accumulated_reward_per_share / PRECISION % U64,
                pend, now⟩)

/-- `unstake_tokens` (lib.rs lines 515-573): `require!(amount > 0)`,
`require!(user_stake.amount >= amount)` → `InsufficientFunds`,
`require!(now >= last_stake_time + cooldown_period)` → `CooldownNotMet`,
then accrue, settle the pending reward, shrink `amount`, resynchronize
`reward_debt`, and `total_staked.checked_sub(amount).unwrap()`. -/
def unstakeTokens (p : StakingPool) (u : UserStake) (now : Int) (amount : Nat) :
    TxResult (StakingPool × UserStake) :=
  if amount = 0 then .err .InvalidAmount
  else if u.amount < amount then .err .InsufficientFunds
  else if now < u.last_stake_time + p.cooldown_period then .err .CooldownNotMet
  else
    match accrue p now with
    | none => .abort
    | some p1 =>
      match settlePendingAlways u p1.accumulated_reward_per_share with
      | none => .abort
      | some pend =>
        if p1.total_staked < amount then .abort
        else
          .ok ({ p1 with total_staked := p1.total_staked - amount },
               ⟨u.amount - amount,
                (u.amount - amount) * p1.accumulated_reward_per_share / PRECISION % U64,
                pend, now⟩)

/-- `claim_rewards` (lib.rs lines 575-627): accrue, compute the pending
delta (zero for an empty position), `pending_rewards.checked_add(..)`,
`require!(total_rewards > 0)` → `NoRewardsToClaim`, then reset
`pending_rewards` to zero and resynchronize `reward_debt`; `amount`,
`last_stake_time` and the pool totals are untouched. -/
def claimRewards (p : StakingPool) (u : UserStake) (now : Int) :
    TxResult (StakingPool × UserStake) :=
  match accrue p now with
  | none => .abort
  | some p1 =>
    match pendingDelta u p1.accumulated_reward_per_share with
    | none => .abort
    | some d =>
      if U64 ≤ u.pending_rewards + d then .abort
      else if u.pending_rewards + d = 0 then .err .NoRewardsToClaim
      else
        .ok (p1, ⟨u.amount, u.amount * p1.accumulated_reward_per_share / PRECISION % U64,
                  0, u.last_stake_time⟩)

-- ===================== HELPER LEMMAS =====================

/-- What a successful accrual does to the pool fields. -/
theorem accrue_elim (p : StakingPool) (now : Int) (p1 : StakingPool)
    (h : accrue p now = some p1) :
    p1.total_staked = p.total_staked ∧ p1.reward_rate = p.reward_rate ∧
    p1.cooldown_period = p.cooldown_period ∧ p1.last_update_time = now ∧
    (p.total_staked = 0 → p1.accumulated_reward_per_share = p.accumulated_reward_per_share) ∧
    (0 < p.total_staked → p1.accumulated_reward_per_share =
      p.accumulated_reward_per_share +
        p.reward_rate * i64ToU128 (now - p.last_update_time) / p.total_staked % U64) := by
  unfold accrue at h
  split at h
  next hpos =>
    split at h
    · exact absurd h (by simp)
    · split at h
      · exact absurd h (by simp)
      · cases h
        exact ⟨rfl, rfl, rfl, rfl, fun h0 => absurd h0 (by omega), fun _ => rfl⟩
  next hz =>
    cases h
    exact ⟨rfl, rfl, rfl, rfl, fun _ => rfl, fun h0 => absurd h0 (by omega)⟩

/-- Inversion of a successful `stakeTokens`. -/
theorem stakeTokens_ok_elim (p : StakingPool) (now : Int) (a : Nat)
    (p' : StakingPool) (u' : UserStake)
    (h : stakeTokens p now a = .ok (p', u')) :
    ∃ p1, accrue p now = some p1 ∧
      p' = { p1 with total_staked := p1.total_staked + a } ∧
      u' = ⟨a, a * p1.accumulated_reward_per_share / PRECISION % U64, 0, now⟩ := by
  unfold stakeTokens at h
  split at h
  · exact absurd h (by simp)
  split at h
  · exact absurd h (by simp)
  next p1 heq =>
    split at h
    · exact absurd h (by simp)
    · cases h
      exact ⟨p1, heq, rfl, rfl⟩

/-- Inversion of a successful `addStake`. -/
theorem addStake_ok_elim (p : StakingPool) (u : UserStake) (now : Int) (a : Nat)
    (p' : StakingPool) (u' : UserStake)
    (h : addStake p u now a = .ok (p', u')) :
    ∃ p1 pend, accrue p now = some p1 ∧
      settlePending u p1.accumulated_reward_per_share = some pend ∧
      p' = { p1 with total_staked := p1.total_staked + a } ∧
      u' = ⟨u.amount + a,
            (u.amount + a) * p1.accumulated_reward_per_share / PRECISION % U64,
            pend, now⟩ := by
  unfold addStake at h
  split at h
  · exact absurd h (by simp)
  split at h
  · exact absurd h (by simp)
  next p1 heq =>
    split at h
    · exact absurd h (by simp)
    next pend hset =>
      split at h
      · exact absurd h (by simp)
      · split at h
        · exact absurd h (by simp)
        · cases h
          exact ⟨p1, pend, heq, hset, rfl, rfl⟩

/-- Inversion of a successful `unstakeTokens`. -/
theorem unstakeTokens_ok_elim (p : StakingPool) (u : UserStake) (now : Int) (a : Nat)
    (p' : StakingPool) (u' : UserStake)
    (h : unstakeTokens p u now a = .ok (p', u')) :
    ∃ p1 pend, accrue p now = some p1 ∧
      settlePendingAlways u p1.accumulated_reward_per_share = some pend ∧
      p' = { p1 with total_staked := p1.total_staked - a } ∧
      u' = ⟨u.amount - a,
            (u.amount - a) * p1.accumulated_reward_per_share / PRECISION % U64,
            pend, now⟩ := by
  unfold unstakeTokens at h
  split at h
  · exact absurd h (by simp)
  split at h
  · exact absurd h (by simp)
  split at h
  · exact absurd h (by simp)
  split at h
  · exact absurd h (by simp)
  next p1 heq =>
    split at h
    · exact absurd h (by simp)
    next pend hset =>
      split at h
      · exact absurd h (by simp)
      · cases h
        exact ⟨p1, pend, heq, hset, rfl, rfl⟩

/-- Inversion of a successful `claimRewards`. -/
theorem claimRewards_ok_elim (p : StakingPool) (u : UserStake) (now : Int)
    (p' : StakingPool) (u' : UserStake)
    (h : claimRewards p u now = .ok (p', u')) :
    accrue p now = some p' ∧
    u' = ⟨u.amount, u.amount * p'.accumulated_reward_per_share / PRECISION % U64,
          0, u.last_stake_time⟩ := by
  unfold claimRewards at h
  split at h
  · exact absurd h (by simp)
  next p1 heq =>
    split at h
    · exact absurd h (by simp)
    next d hd =>
      split at h
      · exact absurd h (by simp)
      · split at h
        · exact absurd h (by simp)
        · cases h
          exact ⟨heq, rfl⟩

end Turbin3

namespace Turbin3

/-- The taxed input never exceeds the raw input. -/
theorem feeAdjusted_le (amm : AmmState) (amount_in : Nat) (hfee : amm.fee ≤ 10000) :
    feeAdjusted amm amount_in ≤ amount_in := by
  unfold feeAdjusted
  calc amount_in * (10000 - amm.fee) / 10000
      ≤ amount_in * 10000 / 10000 := Nat.div_le_div_right (Nat.mul_le_mul_left _ (by omega))
    _ = amount_in := Nat.mul_div_cancel _ (by norm_num)

/-- Inversion of a successful `swapTokens`. -/
theorem swapTokens_ok_elim (amm : AmmState) (dir : SwapDir) (ain minOut : Nat)
    (post : AmmState) (h : swapTokens amm dir ain minOut = .ok post) :
    ain ≠ 0 ∧ amm.fee ≤ 10000 ∧ 0 < rIn amm dir + feeAdjusted amm ain ∧
    minOut ≤ swapOut amm dir ain ∧
    post = mkPost amm dir (rIn amm dir + ain) (rOut amm dir - swapOut amm dir ain) := by
  unfold swapTokens at h
  split at h
  · exact absurd h (by simp)
  next h1 =>
  split at h
  · exact absurd h (by simp)
  next h2 =>
  split at h
  · exact absurd h (by simp)
  split at h
  · exact absurd h (by simp)
  split at h
  · exact absurd h (by simp)
  split at h
  · exact absurd h (by simp)
  next h6 =>
  split at h
  · exact absurd h (by simp)
  next h7 =>
  split at h
  · exact absurd h (by simp)
  cases h
  exact ⟨h1, by omega, by omega, by omega, rfl⟩

/-- Core constant-product inequality: with `f ≤ ain` and a positive
denominator, removing `floor(rout * f / (rin + f))` from the output side
while adding the full `ain` to the input side cannot shrink the product. -/
theorem swap_product_key (rin rout f ain : Nat) (hf : f ≤ ain) (hden : 0 < rin + f) :
    rin * rout ≤ (rin + ain) * (rout - rout * f / (rin + f)) := by
  set out := rout * f / (rin + f) with hout
  have hole : out ≤ rout := by
    have h1 : rout * f ≤ rout * (rin + f) := Nat.mul_le_mul_left _ (by omega)
    calc out ≤ rout * (rin + f) / (rin + f) := Nat.div_le_div_right h1
      _ = rout := Nat.mul_div_cancel _ hden
  have hkey : out * (rin + f) ≤ rout * f := Nat.div_mul_le_self _ _
  obtain ⟨d, hd⟩ := Nat.le.dest hole
  have h2 : out * f + out * rin ≤ out * f + d * f := by
    calc out * f + out * rin = out * (rin + f) := by ring
      _ ≤ rout * f := hkey
      _ = (out + d) * f := by rw [hd]
      _ = out * f + d * f := by ring
  have h3 : rin * out ≤ ain * d := by
    have h2' : out * rin ≤ d * f := Nat.le_of_add_le_add_left h2
    calc rin * out = out * rin := by ring
      _ ≤ d * f := h2'
      _ ≤ d * ain := Nat.mul_le_mul_left _ hf
      _ = ain * d := by ring
  have hsub : rout - out = d := by omega
  rw [hsub]
  calc rin * rout = rin * (out + d) := by rw [hd]
    _ = rin * out + rin * d := by ring
    _ ≤ ain * d + rin * d := Nat.add_le_add_right h3 _
    _ = (rin + ain) * d := by ring

end Turbin3

namespace Turbin3

-- ===================== CLAIM C2 =====================

/-- C2 (confirmed): for a swap with `amount_in > 0` on a pool with a valid
fee, a positive input-side reserve and all 64-bit intermediates in range,
the output is `floor(reserve_out * f / (reserve_in + f))` with
`f = floor(amount_in * (10000 - fee_bps) / 10000)`; the call fails with
`SlippageExceeded` exactly when that output is below `min_amount_out`; and
on success the input reserve grows by the full `amount_in` while the
output reserve shrinks by the output. -/
theorem swap_formula_and_effects (amm : AmmState) (dir : SwapDir) (ain minOut : Nat)
    (hain : 0 < ain) (hfee : amm.fee ≤ 10000) (hrin : 0 < rIn amm dir)
    (hm1 : ain * (10000 - amm.fee) < U64)
    (hm2 : rOut amm dir * feeAdjusted amm ain < U64)
    (ha1 : rIn amm dir + feeAdjusted amm ain < U64)
    (ha2 : rIn amm dir + ain < U64) :
    (swapTokens amm dir ain minOut = .err .SlippageExceeded ↔ swapOut amm dir ain < minOut) ∧
    (minOut ≤ swapOut amm dir ain →
      swapTokens amm dir ain minOut =
        .ok (mkPost amm dir (rIn amm dir + ain) (rOut amm dir - swapOut amm dir ain))) ∧
    rIn (mkPost amm dir (rIn amm dir + ain) (rOut amm dir - swapOut amm dir ain)) dir =
      rIn amm dir + ain ∧
    rOut (mkPost amm dir (rIn amm dir + ain) (rOut amm dir - swapOut amm dir ain)) dir =
      rOut amm dir - swapOut amm dir ain := by
  have hne : ¬ ain = 0 := by omega
  have hf2 : ¬ 10000 < amm.fee := by omega
  refine ⟨?_, ?_, ?_, ?_⟩
  · unfold swapTokens
    rw [if_neg hne, if_neg hf2, if_neg (by omega), if_neg (by omega), if_neg (by omega),
        if_neg (by omega)]
    by_cases hlt : swapOut amm dir ain < minOut
    · simp [hlt]
    · rw [if_neg hlt, if_neg (by omega)]
      simp [hlt]
  · intro hge
    unfold swapTokens
    rw [if_neg hne, if_neg hf2, if_neg (by omega), if_neg (by omega), if_neg (by omega),
        if_neg (by omega), if_neg (by omega), if_neg (by omega)]
  · cases dir <;> rfl
  · cases dir <;> rfl

/-- Witness for C2 at a concrete pool: reserves `(500, 500)`, fee 100 bps,
`Swap(50, a, 10)` succeeds with `f = 49` and output `44`. -/
theorem swap_formula_and_effects_witness :
    swapTokens ⟨500, 500, 100⟩ .aToB 50 10 =
      .ok (mkPost ⟨500, 500, 100⟩ .aToB (rIn ⟨500, 500, 100⟩ .aToB + 50)
            (rOut ⟨500, 500, 100⟩ .aToB - swapOut ⟨500, 500, 100⟩ .aToB 50)) :=
  (swap_formula_and_effects ⟨500, 500, 100⟩ .aToB 50 10 (by decide) (by decide) (by decide)
    (by decide) (by decide) (by decide) (by decide)).2.1 (by decide)

-- ===================== CLAIM C3 =====================

/-- C3 (confirmed): any successful swap from a pool with positive reserves
leaves `reserve_a * reserve_b` at least as large as before. -/
theorem swap_product_nondecreasing (amm : AmmState) (dir : SwapDir) (ain minOut : Nat)
    (post : AmmState) (hra : 0 < amm.reserve_a) (hrb : 0 < amm.reserve_b)
    (hok : swapTokens amm dir ain minOut = .ok post) :
    amm.reserve_a * amm.reserve_b ≤ post.reserve_a * post.reserve_b := by
  obtain ⟨-, hfee, hden, -, hpost⟩ := swapTokens_ok_elim amm dir ain minOut post hok
  have hf : feeAdjusted amm ain ≤ ain := feeAdjusted_le amm ain hfee
  have hkey := swap_product_key (rIn amm dir) (rOut amm dir) (feeAdjusted amm ain) ain hf hden
  subst hpost
  cases dir with
  | aToB => simpa [mkPost, rIn, rOut, swapOut] using hkey
  | bToA =>
    have := hkey
    simp only [mkPost, rIn, rOut, swapOut] at this ⊢
    calc amm.reserve_a * amm.reserve_b = amm.reserve_b * amm.reserve_a := by ring
      _ ≤ (amm.reserve_b + ain) *
            (amm.reserve_a - amm.reserve_a * feeAdjusted amm ain /
              (amm.reserve_b + feeAdjusted amm ain)) := this
      _ = (amm.reserve_a - amm.reserve_a * feeAdjusted amm ain /
            (amm.reserve_b + feeAdjusted amm ain)) * (amm.reserve_b + ain) := by ring

/-- Witness for C3: swapping 100 into the `(200, 300)` zero-fee pool gives
post-state `(300, 200)`, preserving the product `60000`. -/
theorem swap_product_nondecreasing_witness :
    (200 : Nat) * 300 ≤ 300 * 200 :=
  swap_product_nondecreasing ⟨200, 300, 0⟩ .aToB 100 0 ⟨300, 200, 0⟩
    (by decide) (by decide) (by decide)

-- ===================== CLAIM C9 =====================

/-- C9 (counterexample): with reserves `(1000, 4000)` and fee 30 bps,
`Swap(100, asset_a, 0)` does not produce the claimed post-state
`(1100, 2003)`. -/
theorem scenarioB_counterexample :
    swapTokens ⟨1000, 4000, 30⟩ .aToB 100 0 ≠ .ok ⟨1100, 2003, 30⟩ := by decide

/-- C9 (amended, proved): with reserves `(1000, 4000)` and fee 30 bps,
`Swap(100, asset_a, 0)` computes `amount_in_after_fee =
floor(100*9970/10000) = 99` and `amount_out = floor(4000*99/(1000+99)) =
360`, leaving reserves `(1100, 3640)`. -/
theorem scenarioB_actual :
    feeAdjusted ⟨1000, 4000, 30⟩ 100 = 99 ∧
    swapOut ⟨1000, 4000, 30⟩ .aToB 100 = 360 ∧
    swapTokens ⟨1000, 4000, 30⟩ .aToB 100 0 = .ok ⟨1100, 3640, 30⟩ :=
  ⟨by decide, by decide, by decide⟩

end Turbin3

namespace Turbin3

/-- `x as u128` of a small non-negative `i64` is just its magnitude. -/
theorem i64ToU128_of_nonneg (x : Int) (h0 : 0 ≤ x) (h1 : x < 2 ^ 63) :
    i64ToU128 x = x.toNat := by
  unfold i64ToU128
  rw [Int.emod_eq_of_lt h0 (lt_trans h1 (by norm_num))]

-- ===================== CLAIM C1 =====================

set_option maxRecDepth 4000 in
/-- C1 (counterexample): `Stake(50)` at `t = 10` on a pool with
`total_staked = 100`, `reward_rate = 10`, `last_update_time = 0` and a
zero accumulator succeeds and raises `accumulated_reward_per_share` by
`floor(10*10/100) = 1`, not by the claimed
`floor(10*10*PRECISION/100) = 1e9`. -/
theorem accrual_no_precision_counterexample :
    stakeTokens ⟨100, 10, 0, 0, 86400⟩ 10 50 =
      .ok (⟨150, 10, 10, 1, 86400⟩, ⟨50, 0, 0, 10⟩) ∧
    (⟨150, 10, 10, 1, 86400⟩ : StakingPool).accumulated_reward_per_share ≠
      (⟨100, 10, 0, 0, 86400⟩ : StakingPool).accumulated_reward_per_share +
        10 * 10 * PRECISION / 100 :=
  ⟨by decide, by decide⟩

/-- C1 (amended, proved): every successful staking operation (Stake,
AddStake, Unstake, ClaimRewards) executed at time `now ≥ last_update_time`
raises `accumulated_reward_per_share` by exactly
`floor(reward_rate * (now - last_update_time) / total_staked)` truncated
to `u64` when `total_staked > 0` beforehand — the code never multiplies by
`PRECISION` — leaves it unchanged when `total_staked = 0`, and sets
`last_update_time := now` in every case. -/
theorem accrual_update_amended (p : StakingPool) (u : UserStake) (now : Int) (a : Nat)
    (hle : p.last_update_time ≤ now) (hel : now - p.last_update_time < 2 ^ 63) :
    (∀ p' u', stakeTokens p now a = .ok (p', u') →
      p'.last_update_time = now ∧
      (p.total_staked = 0 → p'.accumulated_reward_per_share = p.accumulated_reward_per_share) ∧
      (0 < p.total_staked → p'.accumulated_reward_per_share =
        p.accumulated_reward_per_share +
          p.reward_rate * (now - p.last_update_time).toNat / p.total_staked % U64)) ∧
    (∀ p' u', addStake p u now a = .ok (p', u') →
      p'.last_update_time = now ∧
      (p.total_staked = 0 → p'.accumulated_reward_per_share = p.accumulated_reward_per_share) ∧
      (0 < p.total_staked → p'.accumulated_reward_per_share =
        p.accumulated_reward_per_share +
          p.reward_rate * (now - p.last_update_time).toNat / p.total_staked % U64)) ∧
    (∀ p' u', unstakeTokens p u now a = .ok (p', u') →
      p'.last_update_time = now ∧
      (p.total_staked = 0 → p'.accumulated_reward_per_share = p.accumulated_reward_per_share) ∧
      (0 < p.total_staked → p'.accumulated_reward_per_share =
        p.accumulated_reward_per_share +
          p.reward_rate * (now - p.last_update_time).toNat / p.total_staked % U64)) ∧
    (∀ p' u', claimRewards p u now = .ok (p', u') →
      p'.last_update_time = now ∧
      (p.total_staked = 0 → p'.accumulated_reward_per_share = p.accumulated_reward_per_share) ∧
      (0 < p.total_staked → p'.accumulated_reward_per_share =
        p.accumulated_reward_per_share +
          p.reward_rate * (now - p.last_update_time).toNat / p.total_staked % U64)) := by
  have hcast : i64ToU128 (now - p.last_update_time) = (now - p.last_update_time).toNat :=
    i64ToU128_of_nonneg _ (by omega) hel
  refine ⟨?_, ?_, ?_, ?_⟩ <;> intro p' u' h
  · obtain ⟨p1, hacc, hp, -⟩ := stakeTokens_ok_elim p now a p' u' h
    obtain ⟨-, -, -, hlast, hz, hpos⟩ := accrue_elim p now p1 hacc
    subst hp
    exact ⟨hlast, fun h0 => hz h0, fun h0 => by rw [← hcast]; exact hpos h0⟩
  · obtain ⟨p1, pend, hacc, -, hp, -⟩ := addStake_ok_elim p u now a p' u' h
    obtain ⟨-, -, -, hlast, hz, hpos⟩ := accrue_elim p now p1 hacc
    subst hp
    exact ⟨hlast, fun h0 => hz h0, fun h0 => by rw [← hcast]; exact hpos h0⟩
  · obtain ⟨p1, pend, hacc, -, hp, -⟩ := unstakeTokens_ok_elim p u now a p' u' h
    obtain ⟨-, -, -, hlast, hz, hpos⟩ := accrue_elim p now p1 hacc
    subst hp
    exact ⟨hlast, fun h0 => hz h0, fun h0 => by rw [← hcast]; exact hpos h0⟩
  · obtain ⟨hacc, -⟩ := claimRewards_ok_elim p u now p' u' h
    obtain ⟨-, -, -, hlast, hz, hpos⟩ := accrue_elim p now p' hacc
    exact ⟨hlast, fun h0 => hz h0, fun h0 => by rw [← hcast]; exact hpos h0⟩

/-- Witness for the amended C1, instantiated at the Stake counterexample
state: the accumulator moves from `0` to `0 + 10*10/100 % U64 = 1` and
`last_update_time` becomes `10`. -/
theorem accrual_update_amended_witness :
    (⟨150, 10, 10, 1, 86400⟩ : StakingPool).last_update_time = (10 : Int) ∧
    ((⟨100, 10, 0, 0, 86400⟩ : StakingPool).total_staked = 0 →
      (⟨150, 10, 10, 1, 86400⟩ : StakingPool).accumulated_reward_per_share =
        (⟨100, 10, 0, 0, 86400⟩ : StakingPool).accumulated_reward_per_share) ∧
    (0 < (⟨100, 10, 0, 0, 86400⟩ : StakingPool).total_staked →
      (⟨150, 10, 10, 1, 86400⟩ : StakingPool).accumulated_reward_per_share =
        (⟨100, 10, 0, 0, 86400⟩ : StakingPool).accumulated_reward_per_share +
          10 * ((10 : Int) - 0).toNat / 100 % U64) :=
  (accrual_update_amended ⟨100, 10, 0, 0, 86400⟩ ⟨0, 0, 0, 0⟩ 10 50
    (by decide) (by decide)).1 ⟨150, 10, 10, 1, 86400⟩ ⟨50, 0, 0, 10⟩ (by decide)

end Turbin3

namespace Turbin3

-- ===================== CLAIM C5 =====================

/-- C5 (counterexample): with reserves `(1, 2^63)` and zero fee,
`Swap(4, asset_a, 0)` aborts with a panic (`checked_mul(..).unwrap()` on
the 64-bit constant-product numerator `2^63 * 4 = 2^65`) instead of
failing with a typed error — under a 128-bit intermediate this input
would produce a finite output. -/
theorem swap_panics_counterexample :
    swapTokens ⟨1, 9223372036854775808, 0⟩ .aToB 4 0 = .abort := by decide

/-- C5 (amended, proved): the fee application and the constant-product
numerator of `Swap` are computed in 64-bit checked arithmetic with
`.unwrap()`: whenever the mathematical product
`reserve_out * amount_in_after_fee` reaches `2^64`, the operation aborts
with a panic rather than returning a typed `Overflow` or
`DivisionByZero` error (no such variants exist in `ErrorCode`). -/
theorem swap_aborts_on_overflow (amm : AmmState) (dir : SwapDir) (ain minOut : Nat)
    (hain : 0 < ain) (hfee : amm.fee ≤ 10000)
    (hm1 : ain * (10000 - amm.fee) < U64)
    (hov : U64 ≤ rOut amm dir * feeAdjusted amm ain) :
    swapTokens amm dir ain minOut = .abort := by
  unfold swapTokens
  rw [if_neg (by omega), if_neg (by omega), if_neg (by omega), if_pos hov]

/-- Witness for the amended C5: `Swap(8, asset_a, 0)` on the `(7, 2^62)`
zero-fee pool aborts, because `2^62 * 8 = 2^65 ≥ 2^64`. -/
theorem swap_aborts_on_overflow_witness :
    swapTokens ⟨7, 4611686018427387904, 0⟩ .aToB 8 0 = .abort :=
  swap_aborts_on_overflow ⟨7, 4611686018427387904, 0⟩ .aToB 8 0
    (by decide) (by decide) (by decide) (by decide)

-- ===================== CLAIM C6 =====================

set_option maxRecDepth 4000 in
/-- C6 (counterexample): `ClaimRewards` at `t = 1` on the pool
`total_staked = 1`, `reward_rate = 1`, `last_update_time = 0`,
`accumulated_reward_per_share = 2^64 - 1` with a one-token staker aborts
with an overflow panic (`checked_add(..).unwrap()` on the accumulator),
which is neither a success nor a typed error. -/
theorem claim_rewards_panic_counterexample :
    claimRewards ⟨1, 1, 0, 18446744073709551615, 1⟩ ⟨1, 0, 0, 0⟩ 1 = .abort := by decide

/-- C6 (amended, proved): under Solana's transactional commit, a
`ClaimRewards` that does not succeed leaves the staking pool and position
exactly as they were; its only typed error is `NoRewardsToClaim` (an
arithmetic panic is also possible, and likewise commits no change). -/
theorem claim_rewards_atomicity (p : StakingPool) (u : UserStake) (now : Int) :
    (∀ e, claimRewards p u now = .err e →
      e = ErrorCode.NoRewardsToClaim ∧
      commit (claimRewards p u now) (p, u) = (p, u)) ∧
    (claimRewards p u now = .abort →
      commit (claimRewards p u now) (p, u) = (p, u)) := by
  constructor
  · intro e he
    refine ⟨?_, by rw [he]; rfl⟩
    unfold claimRewards at he
    split at he
    · exact absurd he (by simp)
    · split at he
      · exact absurd he (by simp)
      · split at he
        · exact absurd he (by simp)
        · split at he
          · injection he with h2
            exact h2.symm
          · exact absurd he (by simp)
  · intro ha
    rw [ha]; rfl

/-- Witness for the amended C6: a claim with nothing owed fails with
`NoRewardsToClaim` and commits no state change. -/
theorem claim_rewards_atomicity_witness :
    ErrorCode.NoRewardsToClaim = ErrorCode.NoRewardsToClaim ∧
    commit (claimRewards ⟨0, 1, 0, 0, 1⟩ ⟨0, 0, 0, 0⟩ 5)
        ((⟨0, 1, 0, 0, 1⟩ : StakingPool), (⟨0, 0, 0, 0⟩ : UserStake)) =
      ((⟨0, 1, 0, 0, 1⟩ : StakingPool), (⟨0, 0, 0, 0⟩ : UserStake)) :=
  (claim_rewards_atomicity ⟨0, 1, 0, 0, 1⟩ ⟨0, 0, 0, 0⟩ 5).1
    ErrorCode.NoRewardsToClaim (by decide)

-- ===================== CLAIM C7 =====================

set_option maxRecDepth 4000 in
/-- C7 (counterexample): `Stake(2^63)` on a pool whose accumulator is
`2^63` succeeds but stores `reward_debt = (2^63 * 2^63 / 1e9) mod 2^64 =
7883915285287146769`, which differs from the claimed exact value
`floor(2^63 * 2^63 / 1e9)` (the `as u64` cast truncates). -/
theorem reward_debt_truncation_counterexample :
    stakeTokens ⟨0, 1, 0, 9223372036854775808, 1⟩ 0 9223372036854775808 =
      .ok (⟨9223372036854775808, 1, 0, 9223372036854775808, 1⟩,
           ⟨9223372036854775808, 7883915285287146769, 0, 0⟩) ∧
    (⟨9223372036854775808, 7883915285287146769, 0, 0⟩ : UserStake).reward_debt ≠
      9223372036854775808 * 9223372036854775808 / PRECISION :=
  ⟨by decide, by decide⟩

/-- C7 (amended, proved): immediately after every successful staking
operation that touches a position, the stored `reward_debt` equals
`floor(amount * accumulated_reward_per_share / PRECISION)` reduced mod
`2^64` (the `as u64` cast), computed from the post-operation amount and
the pool's current accumulator. -/
theorem reward_debt_resync_amended (p : StakingPool) (u : UserStake) (now : Int) (a : Nat) :
    (∀ p' u', stakeTokens p now a = .ok (p', u') →
      u'.reward_debt = u'.amount * p'.accumulated_reward_per_share / PRECISION % U64) ∧
    (∀ p' u', addStake p u now a = .ok (p', u') →
      u'.reward_debt = u'.amount * p'.accumulated_reward_per_share / PRECISION % U64) ∧
    (∀ p' u', unstakeTokens p u now a = .ok (p', u') →
      u'.reward_debt = u'.amount * p'.accumulated_reward_per_share / PRECISION % U64) ∧
    (∀ p' u', claimRewards p u now = .ok (p', u') →
      u'.reward_debt = u'.amount * p'.accumulated_reward_per_share / PRECISION % U64) := by
  refine ⟨?_, ?_, ?_, ?_⟩ <;> intro p' u' h
  · obtain ⟨p1, -, hp, hu⟩ := stakeTokens_ok_elim p now a p' u' h
    subst hp; subst hu; rfl
  · obtain ⟨p1, pend, -, -, hp, hu⟩ := addStake_ok_elim p u now a p' u' h
    subst hp; subst hu; rfl
  · obtain ⟨p1, pend, -, -, hp, hu⟩ := unstakeTokens_ok_elim p u now a p' u' h
    subst hp; subst hu; rfl
  · obtain ⟨hacc, hu⟩ := claimRewards_ok_elim p u now p' u' h
    subst hu; rfl

/-- Witness for the amended C7 at a small `Stake`: the fresh position's
debt is `5 * 0 / PRECISION % U64 = 0`. -/
theorem reward_debt_resync_witness :
    (⟨5, 0, 0, 0⟩ : UserStake).reward_debt =
      (⟨5, 0, 0, 0⟩ : UserStake).amount *
        (⟨5, 1, 0, 0, 1⟩ : StakingPool).accumulated_reward_per_share / PRECISION % U64 :=
  (reward_debt_resync_amended ⟨0, 1, 0, 0, 1⟩ ⟨0, 0, 0, 0⟩ 0 5).1
    ⟨5, 1, 0, 0, 1⟩ ⟨5, 0, 0, 0⟩ (by decide)

-- ===================== CLAIM C10 =====================

/-- C10 (confirmed): `Unstake(amount)` fails with `InsufficientFunds`
whenever `amount > position.amount`, and fails with `CooldownNotMet`
whenever the earlier guards pass and
`now < last_stake_time + cooldown_period`; `Stake` and `AddStake` reset
`last_stake_time` to the current time. -/
theorem unstake_guards_and_cooldown (p : StakingPool) (u : UserStake) (now : Int) (a : Nat) :
    (u.amount < a → unstakeTokens p u now a = .err .InsufficientFunds) ∧
    (0 < a → a ≤ u.amount → now < u.last_stake_time + p.cooldown_period →
      unstakeTokens p u now a = .err .CooldownNotMet) ∧
    (∀ p' u', stakeTokens p now a = .ok (p', u') → u'.last_stake_time = now) ∧
    (∀ p' u', addStake p u now a = .ok (p', u') → u'.last_stake_time = now) := by
  refine ⟨?_, ?_, ?_, ?_⟩
  · intro hlt
    unfold unstakeTokens
    rw [if_neg (by omega), if_pos hlt]
  · intro h0 hle hcd
    unfold unstakeTokens
    rw [if_neg (by omega), if_neg (by omega), if_pos hcd]
  · intro p' u' h
    obtain ⟨p1, -, -, hu⟩ := stakeTokens_ok_elim p now a p' u' h
    subst hu; rfl
  · intro p' u' h
    obtain ⟨p1, pend, -, -, -, hu⟩ := addStake_ok_elim p u now a p' u' h
    subst hu; rfl

/-- Witness for C10 (Scenario D): an `Unstake(50)` attempted 1 second
after a `Stake` that set `last_stake_time = 0`, with
`cooldown_period = 86400`, fails with `CooldownNotMet`. -/
theorem unstake_guards_and_cooldown_witness :
    unstakeTokens ⟨100, 10, 0, 0, 86400⟩ ⟨100, 0, 0, 0⟩ 1 50 = .err .CooldownNotMet :=
  (unstake_guards_and_cooldown ⟨100, 10, 0, 0, 86400⟩ ⟨100, 0, 0, 0⟩ 1 50).2.1
    (by decide) (by decide) (by decide)

end Turbin3
